import Mathlib

/-!
Verification of the Bloomington Service Request Dashboard core pipeline
(`app.py` and `liveapp.py`): the Record Store (`load_data`), the Filter
Engine (the category/date filtering in `main`), and the Aggregator
(`plot_service_requests_over_time`, `plot_avg_response_time_by_month`,
`calculate_avg_response_time`, the `value_counts` category counts and the
`nunique` distinct-category count).

Modelling choices:
  * A pandas `DataFrame` of request records is a `List Record`.
  * A pandas `Timestamp` is the number of seconds since the Unix epoch
    (`Int`); `NaT` is `none` of `Option Timestamp`.  Calendar accessors
    (`.dt.date`, `.dt.year`, `.dt.month_name()`, `.dt.to_period('M')`)
    are derived with the standard civil-from-days calendar algorithm.
  * A float `NaN` produced by missing data is `none` of an `Option` type;
    means are exact rationals (`Rat`).
  * Functions of the source that assign a column into the frame they were
    given (`data['month'] = ...`, `data['month_year'] = ...`) are modelled
    in state-passing style `List Record → List Record × result`, the first
    component being the caller's table after the call.
  * The sorts performed by pandas (`groupby(sort=True)`, `value_counts`,
    `sort_values`) are modelled as stable sorts (`List.insertionSort` is
    stable); tie order among equal sort keys is modelled as order of first
    appearance, which is what the stable reading of the source gives.
-/

/-- Seconds since the Unix epoch; the model of a pandas `Timestamp`. -/
abbrev Timestamp := Int

/-- Seconds in one civil day. -/
def secondsPerDay : Int := 86400

/-- Civil calendar date `(year, month, day)` of a day number counted from
1970-01-01 (Howard Hinnant's `civil_from_days` algorithm, used here as the
model of the calendar accessors of pandas timestamps). -/
def civilFromDays (z : Int) : Int × Nat × Nat :=
  let zs := z + 719468
  let era : Int := zs.fdiv 146097
  let doe : Nat := (zs - era * 146097).toNat
  let yoe : Nat := (doe - doe / 1460 + doe / 36524 - doe / 146096) / 365
  let y : Int := (yoe : Int) + era * 400
  let doy : Nat := doe - (365 * yoe + yoe / 4 - yoe / 100)
  let mp : Nat := (5 * doy + 2) / 153
  let d : Nat := doy - (153 * mp + 2) / 5 + 1
  let m : Nat := if mp < 10 then mp + 3 else mp - 9
  (if m ≤ 2 then y + 1 else y, m, d)

/-- Day number of a timestamp: the model of `.dt.date` (dates compare
chronologically, so a date is represented by its day number). -/
def dateOf (t : Timestamp) : Int := t.fdiv secondsPerDay

/-- Model of `.dt.year`. -/
def yearOf (t : Timestamp) : Int := (civilFromDays (dateOf t)).1

/-- Model of `.dt.month` / the month underlying `.dt.month_name()`,
as a calendar month index `1..12`. -/
def monthOf (t : Timestamp) : Nat := (civilFromDays (dateOf t)).2.1

/-- Model of `.dt.to_period('M').dt.to_timestamp()`: the `(year, month)`
pair identifying the first-of-month timestamp. -/
def monthYearOf (t : Timestamp) : Int × Nat := (yearOf t, monthOf t)

/-- English month name of a month index, as produced by `.dt.month_name()`
and listed in `months_order` of `plot_avg_response_time_by_month`. -/
def monthName : Nat → String
  | 1 => "January"
  | 2 => "February"
  | 3 => "March"
  | 4 => "April"
  | 5 => "May"
  | 6 => "June"
  | 7 => "July"
  | 8 => "August"
  | 9 => "September"
  | 10 => "October"
  | 11 => "November"
  | 12 => "December"
  | _ => ""

/-- One row of the `Cleaned_Open311.csv` table after the datetime
conversions of `load_data`.  The derived columns `resolution_days`
(written by `load_data`), `month_year` (written by
`plot_service_requests_over_time`) and `month` (written by
`plot_avg_response_time_by_month`) are `none` until assigned. -/
structure Record where
  service_name : String
  description : String
  status_description : String
  requested_datetime : Option Timestamp
  updated_datetime : Option Timestamp
  closed_date : Option Timestamp
  lat : Option Rat
  long : Option Rat
  resolution_days : Option Int := none
  month_year : Option (Int × Nat) := none
  month : Option Nat := none
deriving DecidableEq, Repr

/-- Value of `(closed_date - requested_datetime).dt.days` for one record: the
whole-day (floor) difference, `NaT`-propagating to `none` when either
timestamp is missing. -/
def resDaysOf (r : Record) : Option Int :=
  match r.closed_date, r.requested_datetime with
  | some c, some q => some ((c - q).fdiv secondsPerDay)
  | _, _ => none

/-- Arithmetic mean of a list of integers as an exact rational;
`none` models the `NaN` which pandas `.mean()` returns on an empty
(or all-`NaN`, already dropped here) series. -/
def meanOpt (l : List Int) : Option Rat :=
  if l.isEmpty then none else some ((l.sum : Rat) / (l.length : Rat))

/-- Distinct elements of a list in order of first appearance: the key
order of a pandas hashtable (`value_counts`, `groupby` group keys before
their sort). -/
def uniqueFirstSeen {α : Type} [DecidableEq α] : List α → List α
  | [] => []
  | x :: xs => x :: (uniqueFirstSeen xs).filter (fun y => y ≠ x)

/-- Model of `load_data` of `app.py` (lines 12-30), after the CSV read and
datetime parsing: writes the `resolution_days` column, then filters by
`[start_date, end_date]` on `.dt.date` when both bounds are given, and
otherwise keeps the records of `current_year` (the wall-clock year,
passed explicitly here).  A record with `requested_datetime = NaT`
satisfies neither comparison (`NaT` comparisons are false). -/
def load_data (csvData : List Record) (start_date end_date : Option Int)
    (current_year : Int) : List Record :=
  let data := csvData.map (fun r => { r with resolution_days := resDaysOf r })
  match start_date, end_date with
  | some s, some e =>
      data.filter (fun r =>
        match r.requested_datetime with
        | some t => decide (s ≤ dateOf t) && decide (dateOf t ≤ e)
        | none => false)
  | _, _ =>
      data.filter (fun r =>
        match r.requested_datetime with
        | some t => decide (yearOf t = current_year)
        | none => false)

/-- The category filter of `main` (app.py lines 134-135):
`if request_type: data = data[data['service_name'].isin(request_type)]`.
An empty selection is falsy, so it performs no filtering. -/
def filter_by_category (data : List Record) (request_type : List String) :
    List Record :=
  if request_type.isEmpty then data
  else data.filter (fun r => request_type.contains r.service_name)

/-- The date filter of `main` (app.py line 136). -/
def filter_by_date (data : List Record) (start_date end_date : Int) :
    List Record :=
  data.filter (fun r =>
    match r.requested_datetime with
    | some t => decide (start_date ≤ dateOf t) && decide (dateOf t ≤ end_date)
    | none => false)

/-- Model of `calculate_avg_response_time` of `app.py` (lines 94-99): drop the
rows missing either timestamp, recompute the day difference, and take its
mean.  The function assigns no column into `data`, so the state component
is the input unchanged. -/
def calculate_avg_response_time (data : List Record) :
    List Record × Option Rat :=
  let filtered_data := data.filter
    (fun r => r.requested_datetime.isSome && r.closed_date.isSome)
  let response_time := filtered_data.filterMap resDaysOf
  (data, meanOpt response_time)

/-- Chronological order on `(year, month)` keys, used when `groupby`
sorts `month_year` group keys. -/
def leMY (p q : Int × Nat) : Prop :=
  p.1 < q.1 ∨ (p.1 = q.1 ∧ p.2 ≤ q.2)

instance : DecidableRel leMY :=
  fun p q => decidable_of_iff (p.1 < q.1 ∨ (p.1 = q.1 ∧ p.2 ≤ q.2)) Iff.rfl

/-- Order on `((year, month), service_name)` keys, used when `groupby`
sorts the two-level group keys of the by-category monthly series. -/
def leMYS (p q : (Int × Nat) × String) : Prop :=
  (p.1.1 < q.1.1 ∨ (p.1.1 = q.1.1 ∧ p.1.2 < q.1.2)) ∨ (p.1 = q.1 ∧ p.2 ≤ q.2)

instance : DecidableRel leMYS :=
  fun p q => decidable_of_iff
    ((p.1.1 < q.1.1 ∨ (p.1.1 = q.1.1 ∧ p.1.2 < q.1.2)) ∨ (p.1 = q.1 ∧ p.2 ≤ q.2))
    Iff.rfl

/-- Model of `plot_service_requests_over_time` of `app.py` (lines 32-58), up to the
chart construction: it first assigns the derived `month_year` column into
the caller's frame, then (on a local rebinding) filters by the selected
service types and groups by month (and by service name when more than one
type is selected), counting rows per group.  Result rows are
`(month_year, optional service_name, count)` with group keys sorted. -/
def plot_service_requests_over_time (data : List Record)
    (selected_types : List String) :
    List Record × List ((Int × Nat) × Option String × Nat) :=
  let data1 := data.map
    (fun r => { r with month_year := r.requested_datetime.map monthYearOf })
  let data2 := if selected_types.isEmpty then data1
    else data1.filter (fun r => selected_types.contains r.service_name)
  if 1 < selected_types.length then
    let pairs := data2.filterMap
      (fun r => r.month_year.map (fun my => (my, r.service_name)))
    let keys := List.insertionSort leMYS (uniqueFirstSeen pairs)
    (data1, keys.map (fun k => (k.1, some k.2, pairs.count k)))
  else
    let keys := List.insertionSort leMY (uniqueFirstSeen (data2.filterMap (fun r => r.month_year)))
    (data1, keys.map (fun k => (k, none, (data2.filterMap (fun r => r.month_year)).count k)))

/-- Alphabetical order on month indices viewed through their English
names: the order in which `groupby('month')` (on the `month_name()`
strings, with its default `sort=True`) emits the groups. -/
def leMonthAlpha (a b : Nat) : Prop := monthName a ≤ monthName b

instance : DecidableRel leMonthAlpha :=
  fun a b => decidable_of_iff (monthName a ≤ monthName b) Iff.rfl

/-- Order on the aggregated `(month, mean)` rows by the `month` column
after it is made `pd.Categorical` with the calendar `months_order`:
`sort_values('month')` compares the category codes, i.e. the month
indices. -/
def leMonthRow (p q : Nat × Option Rat) : Prop := p.1 ≤ q.1

instance : DecidableRel leMonthRow :=
  fun p q => decidable_of_iff (p.1 ≤ q.1) Iff.rfl

instance : IsTotal (Nat × Option Rat) leMonthRow where
  total p q := Nat.le_total p.1 q.1

instance : IsTrans (Nat × Option Rat) leMonthRow where
  trans _ _ _ h1 h2 := Nat.le_trans h1 h2

/-- Model of `plot_avg_response_time_by_month` of `app.py` (lines 60-79), up to the
chart construction: it assigns the derived `month` column (the month name
of `requested_datetime`, here its index) into the caller's frame, groups
by it (records with `NaT` datetime get a `NaN` key and are dropped by
`groupby`), takes the per-group mean of `resolution_days` (skipping
nulls), and finally re-sorts the rows by the calendar month order via the
`pd.Categorical` conversion and `sort_values('month')`. -/
def plot_avg_response_time_by_month (data : List Record) :
    List Record × List (Nat × Option Rat) :=
  let data1 := data.map
    (fun r => { r with month := r.requested_datetime.map monthOf })
  let grouped := List.insertionSort leMonthAlpha
    (uniqueFirstSeen (data1.filterMap (fun r => r.month)))
  let avg_rows := grouped.map (fun m =>
    (m, meanOpt (data1.filterMap
      (fun r => if r.month = some m then r.resolution_days else none))))
  (data1, List.insertionSort leMonthRow avg_rows)

/-- The service-name column of a table (`data['service_name']`). -/
def service_names (data : List Record) : List String :=
  data.map (fun r => r.service_name)

/-- Sort key of `value_counts` / `sort_values('count', ascending=False)`
on a `(service_name, count, first_seen_rank)` row: count descending, with
the first-seen rank making the stable tie order explicit. -/
def leVC (t u : String × Nat × Nat) : Prop :=
  u.2.1 < t.2.1 ∨ (t.2.1 = u.2.1 ∧ t.2.2 ≤ u.2.2)

instance : DecidableRel leVC :=
  fun t u => decidable_of_iff
    (u.2.1 < t.2.1 ∨ (t.2.1 = u.2.1 ∧ t.2.2 ≤ u.2.2)) Iff.rfl

instance : IsTotal (String × Nat × Nat) leVC where
  total t u := by
    unfold leVC
    rcases Nat.lt_trichotomy t.2.1 u.2.1 with h | h | h
    · exact Or.inr (Or.inl h)
    · rcases Nat.le_total t.2.2 u.2.2 with h2 | h2
      · exact Or.inl (Or.inr ⟨h, h2⟩)
      · exact Or.inr (Or.inr ⟨h.symm, h2⟩)
    · exact Or.inl (Or.inl h)

instance : IsTrans (String × Nat × Nat) leVC where
  trans t u v htu huv := by
    unfold leVC at *
    rcases htu with h1 | ⟨h1, h1'⟩ <;> rcases huv with h2 | ⟨h2, h2'⟩
    · exact Or.inl (h2.trans h1)
    · exact Or.inl (h2 ▸ h1)
    · exact Or.inl (h1 ▸ h2)
    · exact Or.inr ⟨h1.trans h2, h1'.trans h2'⟩

/-- Model of `data['service_name'].value_counts()` (app.py line 237): one row per
distinct value, carrying its frequency, sorted by frequency descending
(modelled as a stable sort over the hashtable's first-seen key order; the
third component records that first-seen rank). -/
def value_counts (names : List String) : List (String × Nat × Nat) :=
  let keys := uniqueFirstSeen names
  let counted := keys.map (fun k => (k, names.count k, keys.indexOf k))
  List.insertionSort leVC counted

/-- The category-counts aggregation of `main` (app.py lines 237-239):
`value_counts`, `reset_index`, column renaming, and one more
`sort_values('count', ascending=False)`; no column is assigned into
`data`, so the state component is the input unchanged. -/
def category_counts (data : List Record) :
    List Record × List (String × Nat) :=
  let vc := value_counts (service_names data)
  let sorted := List.insertionSort leVC vc
  (data, sorted.map (fun t => (t.1, t.2.1)))

/-- Model of `data['service_name'].nunique()` (app.py line 218): the number of
distinct service names. -/
def nunique (data : List Record) : Nat :=
  (service_names data).dedup.length

/-- One raw record of the remote JSON source of `liveapp.py`: every field
is string-typed as delivered by the endpoint. -/
structure RawLiveRecord where
  service_request_id : String
  description : String
  lat : String
  long : String
deriving DecidableEq, Repr

/-- One record of `liveapp.py` after the coordinate coercion. -/
structure LiveRecord where
  service_request_id : String
  description : String
  lat : Option Rat
  long : Option Rat
deriving DecidableEq, Repr

/-- Digit run to its numeric value. -/
def digitsToNat (cs : List Char) : Nat :=
  cs.foldl (fun a c => 10 * a + (c.toNat - 48)) 0

/-- Parse an optionally signed digit run (the exponent of a float). -/
def parseExponent (cs : List Char) : Option Int :=
  let (sgn, rest) :=
    match cs with
    | '-' :: r => ((-1 : Int), r)
    | '+' :: r => ((1 : Int), r)
    | _ => ((1 : Int), cs)
  let ds := rest.takeWhile (fun c => c.isDigit)
  if ds.isEmpty || ds.length ≠ rest.length then none
  else some (sgn * (digitsToNat ds : Int))

/-- Strip leading and trailing whitespace from a character list (the
whitespace tolerance of the pandas numeric parser). -/
def trimChars (cs : List Char) : List Char :=
  ((cs.dropWhile (fun c => c.isWhitespace)).reverse.dropWhile
    (fun c => c.isWhitespace)).reverse

/-- Model of `pd.to_numeric(s, errors='coerce')` on one string cell: numeric text
(optional sign, digits with an optional decimal point, optional exponent,
surrounding whitespace ignored) becomes its exact value, anything else
becomes the missing marker `NaN` (`none`). -/
def to_numeric_coerce (s : String) : Option Rat :=
  let cs := trimChars s.toList
  let (sgn, cs1) :=
    match cs with
    | '-' :: r => ((-1 : Int), r)
    | '+' :: r => ((1 : Int), r)
    | _ => ((1 : Int), cs)
  let intDigits := cs1.takeWhile (fun c => c.isDigit)
  let cs2 := cs1.drop intDigits.length
  let (fracDigits, cs3) :=
    match cs2 with
    | '.' :: r => (r.takeWhile (fun c => Char.isDigit c),
                   r.drop (r.takeWhile (fun c => Char.isDigit c)).length)
    | _ => (([] : List Char), cs2)
  if intDigits.isEmpty && fracDigits.isEmpty then none
  else
    let mant : Rat :=
      ((sgn * (digitsToNat (intDigits ++ fracDigits) : Int) : Int) : Rat) /
        ((10 : Rat) ^ fracDigits.length)
    match cs3 with
    | [] => some mant
    | 'e' :: r => (parseExponent r).map (fun e => mant * (10 : Rat) ^ e)
    | 'E' :: r => (parseExponent r).map (fun e => mant * (10 : Rat) ^ e)
    | _ => none

/-- The coordinate coercion of `liveapp.py` `main` (lines 45-46):
`df['lat'] = pd.to_numeric(df['lat'], errors='coerce')` and likewise for
`long`; every record is kept, only its coordinate cells change. -/
def coerce_lat_long (df : List RawLiveRecord) : List LiveRecord :=
  df.map (fun r =>
    { service_request_id := r.service_request_id
      description := r.description
      lat := to_numeric_coerce r.lat
      long := to_numeric_coerce r.long })

/-- Months present in a table: the month of each non-`NaT`
`requested_datetime`. -/
def monthsOf (T : List Record) : List Nat :=
  T.filterMap (fun r => r.requested_datetime.map monthOf)

/-- The non-null `resolution_days` of the records of a table whose
`requested_datetime` falls in calendar month `m`. -/
def resInMonth (T : List Record) (m : Nat) : List Int :=
  T.filterMap (fun r =>
    if r.requested_datetime.map monthOf = some m then r.resolution_days
    else none)

/-- Removing the derived columns of a record, to compare the loaded
content of two tables. -/
def clearDerived (r : Record) : Record :=
  { r with resolution_days := none, month_year := none, month := none }

/-- Fixture: a record with the given service name and timestamps and no
derived columns. -/
def mkRec (svc : String) (req clo : Option Timestamp) : Record :=
  { service_name := svc, description := "", status_description := "",
    requested_datetime := req, updated_datetime := none, closed_date := clo,
    lat := none, long := none }

/-- Fixture: a January 1970 record, closed after five days. -/
def wRecA : Record := mkRec "Pothole" (some 0) (some (secondsPerDay * 5))

/-- Fixture: a February 1970 record, still open. -/
def wRecB : Record := mkRec "Graffiti" (some (secondsPerDay * 40)) none

/-- Fixture: a record with no `requested_datetime`. -/
def wRecC : Record := mkRec "Trash" none (some 0)

/-- Fixture table for the category-filter claims. -/
def wT3 : List Record := [wRecA, wRecB, wRecC]

/-- Fixture category selection. -/
def wC3 : List String := ["Pothole", "Trash"]

/-- Fixture table realising the tie-break example of the specification:
categories `A` with three records and `B`, `C` with five each, `B` first
encountered before `C`. -/
def exampleT : List Record :=
  [mkRec "B" none none, mkRec "A" none none, mkRec "B" none none,
   mkRec "C" none none, mkRec "B" none none, mkRec "C" none none,
   mkRec "B" none none, mkRec "C" none none, mkRec "A" none none,
   mkRec "C" none none, mkRec "B" none none, mkRec "C" none none,
   mkRec "A" none none]

/-- Fixture table whose `resolution_days` column is the one `load_data`
writes. -/
def wT9 : List Record :=
  [{ wRecA with resolution_days := some 5 },
   { wRecB with resolution_days := none },
   { wRecC with resolution_days := none }]

/-- Fixture raw remote records: one non-numeric coordinate, one numeric. -/
def wdf : List RawLiveRecord :=
  [{ service_request_id := "1", description := "pothole on Main",
     lat := "N/A", long := "39.0" },
   { service_request_id := "2", description := "graffiti",
     lat := "39.1", long := "-86.5" }]

theorem mem_uniqueFirstSeen {α : Type} [DecidableEq α] {a : α}
    {l : List α} : a ∈ uniqueFirstSeen l ↔ a ∈ l := by
  induction l with
  | nil => simp [uniqueFirstSeen]
  | cons x xs ih =>
    simp only [uniqueFirstSeen, List.mem_cons, List.mem_filter, ih,
      decide_eq_true_eq]
    by_cases h : a = x
    · simp [h]
    · simp [h]

theorem nodup_uniqueFirstSeen {α : Type} [DecidableEq α] (l : List α) :
    (uniqueFirstSeen l).Nodup := by
  induction l with
  | nil => exact List.nodup_nil
  | cons x xs ih =>
    refine List.nodup_cons.mpr ⟨?_, ih.filter _⟩
    intro hmem
    have h := (List.mem_filter.mp hmem).2
    simp at h

theorem meanOpt_eq_none_iff {l : List Int} : meanOpt l = none ↔ l = [] := by
  unfold meanOpt
  split <;> rename_i h
  · simpa using List.isEmpty_iff.mp h
  · simp only [reduceCtorEq, false_iff]
    intro hl
    exact h (hl ▸ rfl)

theorem resDaysOf_eq_none_iff {r : Record} :
    resDaysOf r = none ↔
      r.requested_datetime = none ∨ r.closed_date = none := by
  unfold resDaysOf
  cases hc : r.closed_date <;> cases hq : r.requested_datetime <;> simp

theorem filterMap_resDaysOf_filter (T : List Record) :
    ((T.filter (fun r => r.requested_datetime.isSome && r.closed_date.isSome)).filterMap
        resDaysOf) = T.filterMap resDaysOf := by
  induction T with
  | nil => rfl
  | cons r rs ih =>
    simp only [List.filter_cons]
    by_cases hp : (r.requested_datetime.isSome && r.closed_date.isSome) = true
    · rw [if_pos hp]
      simp only [List.filterMap_cons, ih]
    · rw [if_neg hp]
      have hnone : resDaysOf r = none := by
        refine resDaysOf_eq_none_iff.mpr ?_
        cases hq : r.requested_datetime <;> cases hc : r.closed_date <;>
          simp [hq, hc] at hp ⊢
      simp only [List.filterMap_cons, hnone, ih]

/-- C3: for every table `T` and category set `C`, `filter_by_category`
returns a sub-sequence of `T`'s records; when `C` is non-empty every
record of the result has its `service_name` in `C`; and when `C` is empty
(the falsy "no selection" case) the result is `T` unchanged. -/
theorem c3_category_filter (T : List Record) (C : List String) :
    (filter_by_category T C).Sublist T ∧
    (C ≠ [] → ∀ r ∈ filter_by_category T C, r.service_name ∈ C) ∧
    (C = [] → filter_by_category T C = T) := by
  unfold filter_by_category
  by_cases h : C.isEmpty
  · have hC : C = [] := List.isEmpty_iff.mp h
    subst hC
    simp
  · rw [if_neg h]
    refine ⟨List.filter_sublist T, fun _ r hr => ?_, fun hC => ?_⟩
    · have hc := (List.mem_filter.mp hr).2
      simpa using hc
    · exact absurd (List.isEmpty_iff.mpr hC) h

/-- Witness for C3 at a concrete table and non-empty category set. -/
theorem c3_category_filter_witness :
    wC3 ≠ [] ∧ ∀ r ∈ filter_by_category wT3 wC3, r.service_name ∈ wC3 :=
  ⟨by decide, (c3_category_filter wT3 wC3).2.1 (by decide)⟩

/-- C6: the category filter is idempotent — filtering twice with the same
category set gives the same table as filtering once. -/
theorem c6_category_filter_idempotent (T : List Record) (C : List String) :
    filter_by_category (filter_by_category T C) C = filter_by_category T C := by
  unfold filter_by_category
  by_cases h : C.isEmpty
  · simp [h]
  · simp only [h, if_false, Bool.false_eq_true]
    rw [List.filter_filter]
    simp [Bool.and_self]

/-- Witness for C6 at a concrete table and category set. -/
theorem c6_category_filter_idempotent_witness :
    filter_by_category (filter_by_category wT3 wC3) wC3 =
      filter_by_category wT3 wC3 :=
  c6_category_filter_idempotent wT3 wC3

/-- C4: `calculate_avg_response_time` returns the undefined value `none`
(never zero, never an exception — the function is total) exactly when
every record of the table lacks `requested_datetime` or lacks
`closed_date`; on the empty table the condition holds vacuously, so the
result is `none` rather than a failure. -/
theorem c4_mean_resolution_undefined_iff (T : List Record) :
    (calculate_avg_response_time T).2 = none ↔
      ∀ r ∈ T, r.requested_datetime = none ∨ r.closed_date = none := by
  show meanOpt ((T.filter _).filterMap resDaysOf) = none ↔ _
  rw [meanOpt_eq_none_iff, filterMap_resDaysOf_filter,
    List.filterMap_eq_nil_iff]
  constructor
  · intro h r hr
    exact resDaysOf_eq_none_iff.mp (h r hr)
  · intro h r hr
    exact resDaysOf_eq_none_iff.mpr (h r hr)

/-- Witness for C4 at a concrete table all of whose records lack a
timestamp. -/
theorem c4_mean_resolution_undefined_iff_witness :
    (calculate_avg_response_time [wRecB, wRecC]).2 = none :=
  (c4_mean_resolution_undefined_iff [wRecB, wRecC]).mpr (by decide)

/-- C9: on a table whose `resolution_days` column is the one `load_data`
derives (whole days from `closed_date - requested_datetime`, null when
either endpoint is missing), `calculate_avg_response_time` — which
recomputes the difference after dropping records missing either
timestamp — equals the mean of the non-null entries of the precomputed
column. -/
theorem c9_mean_resolution_agrees (T : List Record)
    (h : ∀ r ∈ T, r.resolution_days = resDaysOf r) :
    (calculate_avg_response_time T).2 =
      meanOpt (T.filterMap (fun r => r.resolution_days)) := by
  show meanOpt ((T.filter _).filterMap resDaysOf) = _
  rw [filterMap_resDaysOf_filter,
    List.filterMap_congr (fun r hr => (h r hr).symm)]

/-- Witness for C9 at a concrete load-derived table. -/
theorem c9_mean_resolution_agrees_witness :
    (∀ r ∈ wT9, r.resolution_days = resDaysOf r) ∧
    (calculate_avg_response_time wT9).2 =
      meanOpt (wT9.filterMap (fun r => r.resolution_days)) :=
  ⟨by decide, c9_mean_resolution_agrees wT9 (by decide)⟩

/-- C8: every record returned by `load_data` has a non-null
`requested_datetime`: both the explicit date-range branch and the
default current-year branch compare on `requested_datetime`, and a
record whose `requested_datetime` is `NaT` satisfies neither comparison. -/
theorem c8_load_data_requested_present (csvData : List Record)
    (start_date end_date : Option Int) (current_year : Int) (r : Record)
    (hr : r ∈ load_data csvData start_date end_date current_year) :
    r.requested_datetime.isSome = true := by
  unfold load_data at hr
  rcases start_date with _ | s <;> rcases end_date with _ | e <;>
  · have hp := (List.mem_filter.mp hr).2
    cases hq : r.requested_datetime with
    | none => rw [hq] at hp; simp at hp
    | some t => simp [hq]

/-- Witness for C8: a concrete member of a concrete `load_data` result
(the member is `wRecA` with its `resolution_days` column written). -/
theorem c8_load_data_requested_present_witness :
    ({ wRecA with resolution_days := some 5 } : Record).requested_datetime.isSome = true :=
  c8_load_data_requested_present [wRecA, wRecC] none none 1970
    { wRecA with resolution_days := some 5 } (by decide)

theorem plot_service_requests_fst (T : List Record) (sel : List String) :
    (plot_service_requests_over_time T sel).1 =
      T.map (fun r =>
        { r with month_year := r.requested_datetime.map monthYearOf }) := by
  simp only [plot_service_requests_over_time]
  split <;> rfl

theorem plot_avg_fst (T : List Record) :
    (plot_avg_response_time_by_month T).1 =
      T.map (fun r => { r with month := r.requested_datetime.map monthOf }) :=
  rfl

/-- C2 counterexample: the monthly average-resolution aggregation does
not leave its input table unchanged — on a one-record table the call
writes the derived `month` column into the caller's frame. -/
theorem c2_counterexample_plot_mutates :
    (plot_avg_response_time_by_month [wRecA]).1 ≠ [wRecA] := by decide

/-- C2 as amended: `calculate_avg_response_time` and the category-counts
aggregation return their input table unchanged, but the two plot
aggregations write a derived column (`month_year`, respectively `month`,
computed from `requested_datetime`) into the caller's table; the rows and
every previously loaded field are otherwise unchanged. -/
theorem c2_frame_effect (T : List Record) (sel : List String) :
    (calculate_avg_response_time T).1 = T ∧
    (category_counts T).1 = T ∧
    (plot_service_requests_over_time T sel).1.map clearDerived =
      T.map clearDerived ∧
    (plot_avg_response_time_by_month T).1.map clearDerived =
      T.map clearDerived ∧
    (plot_service_requests_over_time T sel).1.map (fun r => r.month_year) =
      T.map (fun r => r.requested_datetime.map monthYearOf) ∧
    (plot_avg_response_time_by_month T).1.map (fun r => r.month) =
      T.map (fun r => r.requested_datetime.map monthOf) := by
  refine ⟨rfl, rfl, ?_, ?_, ?_, ?_⟩
  · rw [plot_service_requests_fst, List.map_map]
    rfl
  · rw [plot_avg_fst, List.map_map]
    rfl
  · rw [plot_service_requests_fst, List.map_map]
    rfl
  · rw [plot_avg_fst, List.map_map]
    rfl

/-- Witness for C2 (amended) at a concrete table and selection. -/
theorem c2_frame_effect_witness :
    (calculate_avg_response_time wT3).1 = wT3 ∧
    (category_counts wT3).1 = wT3 ∧
    (plot_service_requests_over_time wT3 wC3).1.map clearDerived =
      wT3.map clearDerived ∧
    (plot_avg_response_time_by_month wT3).1.map clearDerived =
      wT3.map clearDerived ∧
    (plot_service_requests_over_time wT3 wC3).1.map (fun r => r.month_year) =
      wT3.map (fun r => r.requested_datetime.map monthYearOf) ∧
    (plot_avg_response_time_by_month wT3).1.map (fun r => r.month) =
      wT3.map (fun r => r.requested_datetime.map monthOf) :=
  c2_frame_effect wT3 wC3

/-- C7: the coordinate coercion of the remote Record Store never fails
and never discards a record — it preserves the length and the
passthrough fields of the frame — and on each cell it turns non-numeric
text (such as the scenario's `"N/A"`) into the missing marker and numeric
text (such as `"39.1"`) into its numeric value. -/
theorem c7_coerce_coordinates (df : List RawLiveRecord) :
    (coerce_lat_long df).length = df.length ∧
    (coerce_lat_long df).map (fun r => r.service_request_id) =
      df.map (fun r => r.service_request_id) ∧
    to_numeric_coerce "N/A" = none ∧
    to_numeric_coerce "39.1" = some (391 / 10) ∧
    coerce_lat_long wdf =
      [{ service_request_id := "1", description := "pothole on Main",
         lat := none, long := some 39 },
       { service_request_id := "2", description := "graffiti",
         lat := some (391 / 10), long := some (-173 / 2) }] := by
  refine ⟨List.length_map _ _, ?_, ?_, ?_, ?_⟩
  · rw [coerce_lat_long, List.map_map]
    rfl
  · simp [to_numeric_coerce, trimChars]
  · simp [to_numeric_coerce, trimChars, digitsToNat]
  · simp [coerce_lat_long, wdf, to_numeric_coerce, trimChars, digitsToNat]
    norm_num

/-- Witness for C7 at the two-record scenario frame. -/
theorem c7_coerce_coordinates_witness :
    (coerce_lat_long wdf).length = wdf.length ∧
    (coerce_lat_long wdf).map (fun r => r.service_request_id) =
      wdf.map (fun r => r.service_request_id) ∧
    to_numeric_coerce "N/A" = none ∧
    to_numeric_coerce "39.1" = some (391 / 10) ∧
    coerce_lat_long wdf =
      [{ service_request_id := "1", description := "pothole on Main",
         lat := none, long := some 39 },
       { service_request_id := "2", description := "graffiti",
         lat := some (391 / 10), long := some (-173 / 2) }] :=
  c7_coerce_coordinates wdf

theorem length_uniqueFirstSeen_eq_length_dedup {α : Type} [DecidableEq α]
    (l : List α) : (uniqueFirstSeen l).length = l.dedup.length :=
  List.Perm.length_eq
    ((List.perm_ext_iff_of_nodup (nodup_uniqueFirstSeen l)
        l.nodup_dedup).mpr
      (fun _ => mem_uniqueFirstSeen.trans List.mem_dedup.symm))

/-- C10: the distinct-category count `nunique` equals the number of
`(service_name, count)` pairs produced by the category-counts
aggregation. -/
theorem c10_nunique_eq_category_counts_length (T : List Record) :
    nunique T = (category_counts T).2.length := by
  unfold nunique category_counts value_counts
  rw [← length_uniqueFirstSeen_eq_length_dedup]
  simp [List.length_insertionSort]

/-- Witness for C10 at a concrete table. -/
theorem c10_nunique_eq_category_counts_length_witness :
    nunique exampleT = (category_counts exampleT).2.length :=
  c10_nunique_eq_category_counts_length exampleT

theorem monthsCol_eq (T : List Record) :
    (T.map (fun r => { r with month := r.requested_datetime.map monthOf })).filterMap
      (fun r => r.month) = monthsOf T := by
  rw [List.filterMap_map]
  rfl

theorem resCol_eq (T : List Record) (m : Nat) :
    (T.map (fun r => { r with month := r.requested_datetime.map monthOf })).filterMap
      (fun r => if r.month = some m then r.resolution_days else none) =
        resInMonth T m := by
  rw [List.filterMap_map]
  rfl

theorem plot_avg_snd (T : List Record) :
    (plot_avg_response_time_by_month T).2 =
      List.insertionSort leMonthRow
        ((List.insertionSort leMonthAlpha (uniqueFirstSeen (monthsOf T))).map
          (fun m => (m, meanOpt (resInMonth T m)))) := by
  simp only [plot_avg_response_time_by_month, monthsCol_eq, resCol_eq]

theorem month_rows_aux (L : List Nat) (f : Nat → Option Rat) (hL : L.Nodup) :
    ((List.insertionSort leMonthRow (L.map (fun m => (m, f m)))).map
        Prod.fst).Pairwise (fun a b : Nat => a < b) ∧
    (∀ m : Nat, m ∈ (List.insertionSort leMonthRow
        (L.map (fun m => (m, f m)))).map Prod.fst ↔ m ∈ L) ∧
    ∀ p ∈ List.insertionSort leMonthRow (L.map (fun m => (m, f m))),
      p.2 = f p.1 := by
  have hperm : (List.insertionSort leMonthRow
      (L.map (fun m => (m, f m)))).Perm (L.map (fun m => (m, f m))) :=
    List.perm_insertionSort _ _
  have hmaps : ∀ M : List Nat, (M.map (fun m => (m, f m))).map Prod.fst = M := by
    intro M
    induction M with
    | nil => rfl
    | cons a t ih =>
      simp only [List.map_cons]
      rw [ih]
  have hfst : ((List.insertionSort leMonthRow
      (L.map (fun m => (m, f m)))).map Prod.fst).Perm L := by
    have h := hperm.map Prod.fst
    rw [hmaps] at h
    exact h
  have hsorted : (List.insertionSort leMonthRow
      (L.map (fun m => (m, f m)))).Pairwise leMonthRow :=
    List.sorted_insertionSort _ _
  refine ⟨?_, fun m => hfst.mem_iff, fun p hp => ?_⟩
  · have h1 : ((List.insertionSort leMonthRow
        (L.map (fun m => (m, f m)))).map Prod.fst).Pairwise
          (fun a b : Nat => a ≤ b) :=
      List.pairwise_map.mpr (hsorted.imp (fun h => h))
    have h2 : ((List.insertionSort leMonthRow
        (L.map (fun m => (m, f m)))).map Prod.fst).Nodup :=
      hfst.symm.nodup hL
    exact (h1.and h2).imp (fun h => Nat.lt_of_le_of_ne h.1 h.2)
  · obtain ⟨m, _, rfl⟩ := List.mem_map.mp (hperm.mem_iff.mp hp)
    rfl

/-- C1 counterexample: on the empty table the monthly average-resolution
aggregation returns no rows at all, not twelve months carrying `NaN` —
`groupby` only emits groups for month values present in the data, and the
later `pd.Categorical` conversion re-orders the existing rows without
adding absent months. -/
theorem c1_counterexample_empty_table :
    (plot_avg_response_time_by_month ([] : List Record)).2.length ≠ 12 := by
  decide

/-- C1 as amended: the monthly average-resolution aggregation returns one
row per calendar month that actually occurs among the records'
`requested_datetime` values — strictly increasing in the fixed calendar
order January..December, never alphabetical or first-occurrence order —
each row carrying the mean of the non-null `resolution_days` of that
month's records (`none` when they are all null); months with zero
matching records are omitted rather than emitted with an undefined
value. -/
theorem c1_monthly_avg_rows (T : List Record) :
    ((plot_avg_response_time_by_month T).2.map Prod.fst).Pairwise
      (fun a b : Nat => a < b) ∧
    (∀ m : Nat, m ∈ (plot_avg_response_time_by_month T).2.map Prod.fst ↔
      m ∈ monthsOf T) ∧
    ∀ p ∈ (plot_avg_response_time_by_month T).2,
      p.2 = meanOpt (resInMonth T p.1) := by
  have hG : (List.insertionSort leMonthAlpha
      (uniqueFirstSeen (monthsOf T))).Nodup :=
    (List.perm_insertionSort _ _).symm.nodup
      (nodup_uniqueFirstSeen (monthsOf T))
  obtain ⟨h1, h2, h3⟩ := month_rows_aux
    (List.insertionSort leMonthAlpha (uniqueFirstSeen (monthsOf T)))
    (fun m => meanOpt (resInMonth T m)) hG
  rw [plot_avg_snd]
  exact ⟨h1,
    fun m => (h2 m).trans
      ((List.perm_insertionSort leMonthAlpha
        (uniqueFirstSeen (monthsOf T))).mem_iff.trans mem_uniqueFirstSeen),
    h3⟩

/-- Witness for C1 (amended) at a concrete table with a January and a
February record. -/
theorem c1_monthly_avg_rows_witness :
    ((plot_avg_response_time_by_month wT3).2.map Prod.fst).Pairwise
      (fun a b : Nat => a < b) ∧
    (∀ m : Nat, m ∈ (plot_avg_response_time_by_month wT3).2.map Prod.fst ↔
      m ∈ monthsOf wT3) ∧
    ∀ p ∈ (plot_avg_response_time_by_month wT3).2,
      p.2 = meanOpt (resInMonth wT3 p.1) :=
  c1_monthly_avg_rows wT3

theorem map_fst_triple (names M : List String) :
    (M.map (fun k => (k, names.count k, (uniqueFirstSeen names).indexOf k))).map
      (fun t : String × Nat × Nat => t.1) = M := by
  induction M with
  | nil => rfl
  | cons a t ih =>
    simp only [List.map_cons]
    rw [ih]

theorem value_counts_sorted_aux (names : List String) :
    (((List.insertionSort leVC (value_counts names)).map
        (fun t => (t.1, t.2.1))).map Prod.fst).Perm (uniqueFirstSeen names) ∧
    (∀ p ∈ (List.insertionSort leVC (value_counts names)).map
        (fun t => (t.1, t.2.1)), p.2 = names.count p.1) ∧
    ((List.insertionSort leVC (value_counts names)).map
        (fun t => (t.1, t.2.1))).Pairwise (fun p q =>
      q.2 < p.2 ∨ (p.2 = q.2 ∧
        (uniqueFirstSeen names).indexOf p.1 <
          (uniqueFirstSeen names).indexOf q.1)) := by
  have hvc : value_counts names =
      List.insertionSort leVC ((uniqueFirstSeen names).map
        (fun k => (k, names.count k, (uniqueFirstSeen names).indexOf k))) := rfl
  have hperm : (List.insertionSort leVC (value_counts names)).Perm
      ((uniqueFirstSeen names).map
        (fun k => (k, names.count k, (uniqueFirstSeen names).indexOf k))) := by
    rw [hvc]
    exact (List.perm_insertionSort _ _).trans (List.perm_insertionSort _ _)
  have hshape : ∀ t ∈ List.insertionSort leVC (value_counts names),
      t.2.1 = names.count t.1 ∧
        t.2.2 = (uniqueFirstSeen names).indexOf t.1 := by
    intro t ht
    obtain ⟨k, _, rfl⟩ := List.mem_map.mp (hperm.mem_iff.mp ht)
    exact ⟨rfl, rfl⟩
  have hs : (List.insertionSort leVC (value_counts names)).Pairwise leVC :=
    List.sorted_insertionSort _ _
  have hthird : ((List.insertionSort leVC (value_counts names)).map
      (fun t : String × Nat × Nat => t.2.2)).Nodup := by
    have hnd : ((uniqueFirstSeen names).map
        (fun k => (uniqueFirstSeen names).indexOf k)).Nodup :=
      (nodup_uniqueFirstSeen names).map_on
        (fun x hx y hy hxy => (List.indexOf_inj hx hy).mp hxy)
    have hmm : ((uniqueFirstSeen names).map
        (fun k => (k, names.count k, (uniqueFirstSeen names).indexOf k))).map
          (fun t : String × Nat × Nat => t.2.2) =
        (uniqueFirstSeen names).map
          (fun k => (uniqueFirstSeen names).indexOf k) := by
      rw [List.map_map]
      rfl
    have h := hperm.map (fun t : String × Nat × Nat => t.2.2)
    rw [hmm] at h
    exact h.symm.nodup hnd
  have hpw3 : (List.insertionSort leVC (value_counts names)).Pairwise
      (fun t u => t.2.2 ≠ u.2.2) := List.pairwise_map.mp hthird
  have hcomb : (List.insertionSort leVC (value_counts names)).Pairwise
      (fun t u => u.2.1 < t.2.1 ∨ (t.2.1 = u.2.1 ∧ t.2.2 < u.2.2)) :=
    (hs.and hpw3).imp (fun h =>
      h.1.elim Or.inl
        (fun h12 => Or.inr ⟨h12.1, Nat.lt_of_le_of_ne h12.2 h.2⟩))
  have hfinal3 : (List.insertionSort leVC (value_counts names)).Pairwise
      (fun t u => u.2.1 < t.2.1 ∨ (t.2.1 = u.2.1 ∧
        (uniqueFirstSeen names).indexOf t.1 <
          (uniqueFirstSeen names).indexOf u.1)) :=
    hcomb.imp_of_mem (fun {t u} ht hu h => by
      rw [← (hshape t ht).2, ← (hshape u hu).2]
      exact h)
  refine ⟨?_, ?_, ?_⟩
  · have h := hperm.map (fun t : String × Nat × Nat => t.1)
    rw [map_fst_triple names (uniqueFirstSeen names)] at h
    have hout : ((List.insertionSort leVC (value_counts names)).map
        (fun t => (t.1, t.2.1))).map Prod.fst =
        (List.insertionSort leVC (value_counts names)).map
          (fun t : String × Nat × Nat => t.1) := by
      rw [List.map_map]
      rfl
    rw [hout]
    exact h
  · intro p hp
    obtain ⟨t, ht, rfl⟩ := List.mem_map.mp hp
    exact (hshape t ht).1
  · exact List.pairwise_map.mpr hfinal3

/-- C5: for every table, `category_counts` has one `(service_name,
count)` row per distinct category with its exact frequency; rows are
sorted by count descending, and among rows with equal counts the
category first encountered in the table (the one with the smaller rank
in the first-seen key order) comes first; on the specification's example
— A with three records, B and C with five each, B seen before C — the
output is `[(B, 5), (C, 5), (A, 3)]`. -/
theorem c5_category_counts (T : List Record) :
    ((category_counts T).2.map Prod.fst).Perm
      (uniqueFirstSeen (service_names T)) ∧
    (∀ p ∈ (category_counts T).2, p.2 = (service_names T).count p.1) ∧
    (category_counts T).2.Pairwise (fun p q =>
      q.2 < p.2 ∨ (p.2 = q.2 ∧
        (uniqueFirstSeen (service_names T)).indexOf p.1 <
          (uniqueFirstSeen (service_names T)).indexOf q.1)) ∧
    (category_counts exampleT).2 = [("B", 5), ("C", 5), ("A", 3)] := by
  obtain ⟨h1, h2, h3⟩ := value_counts_sorted_aux (service_names T)
  exact ⟨h1, h2, h3, by decide⟩

/-- Witness for C5 at the specification's example table. -/
theorem c5_category_counts_witness :
    ((category_counts exampleT).2.map Prod.fst).Perm
      (uniqueFirstSeen (service_names exampleT)) ∧
    (∀ p ∈ (category_counts exampleT).2,
      p.2 = (service_names exampleT).count p.1) ∧
    (category_counts exampleT).2.Pairwise (fun p q =>
      q.2 < p.2 ∨ (p.2 = q.2 ∧
        (uniqueFirstSeen (service_names exampleT)).indexOf p.1 <
          (uniqueFirstSeen (service_names exampleT)).indexOf q.1)) ∧
    (category_counts exampleT).2 = [("B", 5), ("C", 5), ("A", 3)] :=
  c5_category_counts exampleT
